import Mathlib

/-!
Verification development for the salon point-of-sale backend
(`app/routes.py`, `app/auth.py`, `app/config.py`, `app/models.py`).

The Python handlers are shallowly embedded as pure Lean functions:

* Database tables become lists of records; each handler takes the lists it
  reads and returns the (possibly updated) lists together with a response
  value carrying the HTTP status and error message.
* Monetary values (`Numeric(10,2)` columns) are embedded as integer numbers
  of cents, so the `round(x, 2)` calls at the response boundary are the
  identity and exact sums model the Python accumulation.
* Timestamps (`DateTime` columns, UTC) are integers counting microseconds
  since the Unix epoch; calendar dates are `PDate` records.  The civil
  calendar conversions embed Python `datetime.date` arithmetic.
* A `pytz` timezone is embedded as a pair of offset functions:
  `offsetOfLocal` gives, for a local wall-clock instant, the UTC offset that
  `tz.localize` applies; `offsetAtUtc` gives, for a UTC instant, the offset
  that `astimezone(tz)` applies.
* Flask turns an exception that escapes a handler into a 500 response; the
  one place this matters (`date.fromisoformat` outside the `try` block of
  `create_daily_closing`) is embedded as a status-500 response.
-/

/-- Microseconds in one second (Python `datetime` has microsecond precision). -/
def usPerSecond : Int := 1000000

/-- Microseconds in one hour. -/
def usPerHour : Int := 3600000000

/-- Microseconds in one day. -/
def usPerDay : Int := 86400000000

/-- A calendar date, as Python `datetime.date` (no time component). -/
structure PDate where
  year : Int
  month : Int
  day : Int
deriving DecidableEq

/-- Gregorian leap-year rule, as used by Python's `calendar` module. -/
def isLeap (y : Int) : Bool :=
  (y % 4 == 0 && !(y % 100 == 0)) || y % 400 == 0

/-- Number of days in a month; embedding of `calendar.monthrange(y, m)[1]`. -/
def monthrange (y m : Int) : Int :=
  if m == 2 then (if isLeap y then 29 else 28)
  else if m == 4 || m == 6 || m == 9 || m == 11 then 30
  else 31

/-- Days since 1970-01-01 of a civil date (proleptic Gregorian). -/
def daysFromCivil (y m d : Int) : Int :=
  let y2 := if m ≤ 2 then y - 1 else y
  let era := Int.fdiv y2 400
  let yoe := y2 - era * 400
  let mp := if m ≤ 2 then m + 9 else m - 3
  let doy := (153 * mp + 2) / 5 + d - 1
  let doe := yoe * 365 + yoe / 4 - yoe / 100 + doy
  era * 146097 + doe - 719468

/-- Civil date of a day count since 1970-01-01 (inverse of `daysFromCivil`). -/
def civilFromDays (z0 : Int) : PDate :=
  let z := z0 + 719468
  let era := Int.fdiv z 146097
  let doe := z - era * 146097
  let yoe := (doe - doe / 1460 + doe / 36524 - doe / 146096) / 365
  let y := yoe + era * 400
  let doy := doe - (365 * yoe + yoe / 4 - yoe / 100)
  let mp := (5 * doy + 2) / 153
  let d := doy - (153 * mp + 2) / 5 + 1
  let m := if mp < 10 then mp + 3 else mp - 9
  ⟨if m ≤ 2 then y + 1 else y, m, d⟩

/-- The UTC date component of a UTC timestamp: `served_at.date()`, i.e. what
`func.date(ServiceLog.served_at)` computes on the stored UTC value. -/
def utcDateOf (t : Int) : PDate :=
  civilFromDays (Int.fdiv t usPerDay)

/-- Two-digit zero padding for ISO date rendering. -/
def pad2 (n : Int) : String :=
  if n < 10 then "0" ++ toString n else toString n

/-- `date.isoformat()`. -/
def isoDateString (d : PDate) : String :=
  toString d.year ++ "-" ++ pad2 d.month ++ "-" ++ pad2 d.day

/-- Split a character list on `-` separators. -/
def splitDash : List Char → List (List Char) → List Char → List (List Char)
  | [], acc, cur => acc ++ [cur.reverse]
  | c :: cs, acc, cur =>
    if c = '-' then splitDash cs (acc ++ [cur.reverse]) []
    else splitDash cs acc (c :: cur)

/-- Digits-to-number reading, most significant first. -/
def digitsToInt (cs : List Char) : Int :=
  cs.foldl (fun a c => a * 10 + ((c.toNat : Int) - 48)) 0

/-- Embedding of the date-string parsing done by
`datetime.strptime(s, "%Y-%m-%d")` / `date.fromisoformat(s)`: a
`YYYY-MM-DD` digit string denoting a valid calendar date parses to that
date; anything malformed fails. -/
def parseDate (s : String) : Option PDate :=
  match splitDash s.data [] [] with
  | [ys, ms, ds] =>
    if ys.length == 4 && ms.length == 2 && ds.length == 2 &&
        (ys ++ ms ++ ds).all Char.isDigit then
      let y := digitsToInt ys
      let m := digitsToInt ms
      let d := digitsToInt ds
      if 1 ≤ m && m ≤ 12 && 1 ≤ d && d ≤ monthrange y m then some ⟨y, m, d⟩
      else none
    else none
  | _ => none

/-- ASCII lower-casing of a string, embedding Python `str.lower()`
(payment-method strings are ASCII). -/
def lowerStr (s : String) : String :=
  String.mk (s.data.map Char.toLower)

/-- A `pytz` timezone, embedded as its two offset functions (microseconds).
`tz.localize(wall)` denotes the UTC instant `wall - offsetOfLocal wall`;
`utc.astimezone(tz)` denotes the wall clock `utc + offsetAtUtc utc`. -/
structure Tz where
  offsetOfLocal : Int → Int
  offsetAtUtc : Int → Int

/-- Local midnight of a date, as a wall-clock microsecond count. -/
def dayStartLocal (d : PDate) : Int :=
  daysFromCivil d.year d.month d.day * usPerDay

-- ===========================================================
-- Data model (columns actually read or written by the handlers)
-- ===========================================================

/-- `users` row (fields used by the Cognito-revision handlers). -/
structure User where
  id : String
  cognito_sub : String
  email : Option String
  phone : Option String
  role : String
deriving DecidableEq

/-- `salons` row. -/
structure Salon where
  id : String
  owner_id : String
  name : String
  address : String
  timezone : String
deriving DecidableEq

/-- `staff` row. -/
structure Staff where
  id : String
  salon_id : String
  name : String
  email : Option String
  phone : Option String
  role : String
  user_id : Option String
  is_active : Bool
deriving DecidableEq

/-- `service_logs` row.  `price` is in cents; `served_at` is UTC μs. -/
structure ServiceLog where
  id : String
  salon_id : String
  staff_id : Option String
  service_id : Option String
  custom_service : Option String
  price : Int
  payment_method : String
  served_at : Int
deriving DecidableEq

/-- `daily_closings` row (monetary fields in cents; the table carries a
unique constraint on `(salon_id, date)`). -/
structure DailyClosing where
  id : String
  salon_id : String
  date : PDate
  closed_at : Int
  total_revenue : Int
  cash_total : Int
  upi_total : Int
deriving DecidableEq

/-- Sum of prices of a list of logs, in cents. -/
def sumPrices (ls : List ServiceLog) : Int :=
  (ls.map (fun l => l.price)).sum

/-- `Staff.query.filter_by(user_id=uid).first()`. -/
def findStaffByUser (staffs : List Staff) (uid : String) : Option Staff :=
  staffs.find? (fun st => st.user_id == some uid)

-- ===========================================================
-- Response shapes (HTTP status, `{error: ...}` payload, data)
-- ===========================================================

/-- Response of the log-listing endpoints (the serialized rows are modelled
by returning the selected `ServiceLog` rows themselves; the `ORDER BY
served_at DESC` presentation step does not change the selected set and is
not modelled). -/
structure LogsResp where
  status : Int
  error : Option String
  logs : List ServiceLog
deriving DecidableEq

/-- Response of `GET /api/summary` (monetary fields in cents). -/
structure SummaryResp where
  status : Int
  error : Option String
  total_revenue : Int
  cash_total : Int
  upi_total : Int
  transaction_count : Nat
deriving DecidableEq

/-- Response of the grouped reports: rows of (name, count, total cents). -/
structure BreakdownResp where
  status : Int
  error : Option String
  rows : List (String × Nat × Int)
deriving DecidableEq

/-- Response of the monthly/yearly analytics endpoints. -/
structure ChartResp where
  status : Int
  error : Option String
  data : List (String × Int)
  total : Int
deriving DecidableEq

/-- Response of the plain write endpoints. -/
structure ApiResp where
  status : Int
  error : Option String
deriving DecidableEq

-- ===========================================================
-- Helper functions shared by the handlers
-- ===========================================================

/-- `get_day_range_utc(salon, target_date)`: start and end UTC instants of
one calendar day in the salon's timezone.  The Python code localizes
`datetime.min.time()` and `datetime.max.time()` of the date, so the local
window is `[midnight, midnight + 24h - 1μs]`.  `targetDate = none` defaults
to today in the salon's timezone (`todayLocal`). -/
def get_day_range_utc (tz : Tz) (targetDate : Option PDate) (todayLocal : PDate) :
    Int × Int :=
  let d := targetDate.getD todayLocal
  let startLocal := dayStartLocal d
  let endLocal := startLocal + usPerDay - 1
  (startLocal - tz.offsetOfLocal startLocal, endLocal - tz.offsetOfLocal endLocal)

/-- Optional-date-parameter handling shared by the `/api/summary*` and
`/api/logs/today` handlers: absent parameter means "today"; a present
parameter must parse or the request fails. -/
def parseDateParam (p : Option String) : Option (Option PDate) :=
  match p with
  | none => some none
  | some s => (parseDate s).map some

/-- Lexicographic order on character lists (SQLite text collation). -/
def charListLe : List Char → List Char → Bool
  | [], _ => true
  | _ :: _, [] => false
  | a :: as, b :: bs => if a = b then charListLe as bs else decide (a < b)

/-- String comparison used when the `GET /api/logs` query compares
`func.date(served_at)` against the raw query string. -/
def strLe (a b : String) : Bool :=
  charListLe a.data b.data

/-- Day-of-month of a UTC instant converted to salon-local time
(`log.served_at.replace(tzinfo=utc).astimezone(tz).day`). -/
def localDayOfMonth (tz : Tz) (t : Int) : Int :=
  (civilFromDays (Int.fdiv (t + tz.offsetAtUtc t) usPerDay)).day

/-- Month of a UTC instant converted to salon-local time. -/
def localMonthOf (tz : Tz) (t : Int) : Int :=
  (civilFromDays (Int.fdiv (t + tz.offsetAtUtc t) usPerDay)).month

-- ===========================================================
-- Log listing and summary handlers
-- ===========================================================

/-- `GET /api/logs/today`: day-range filter on the bound salon, narrowed to
the caller's own `Staff` row when the caller's role is STAFF. -/
def get_today_logs (tz : Tz) (logs : List ServiceLog) (staffs : List Staff)
    (hasSalon : Bool) (salon_id : String) (role : String) (userId : String)
    (dateParam : Option String) (todayLocal : PDate) : LogsResp :=
  if !hasSalon then ⟨404, some "No salon found", []⟩
  else
    match parseDateParam dateParam with
    | none => ⟨400, some "Invalid date format", []⟩
    | some target =>
      let r := get_day_range_utc tz target todayLocal
      let base := logs.filter (fun l =>
        l.salon_id == salon_id && decide (r.1 ≤ l.served_at) &&
          decide (l.served_at ≤ r.2))
      let sel :=
        if role == "STAFF" then
          match findStaffByUser staffs userId with
          | some st => base.filter (fun l => l.staff_id == some st.id)
          | none => base
        else base
      ⟨200, none, sel⟩

/-- `GET /api/logs`: salon filter plus raw comparisons of
`func.date(served_at)` against the unvalidated `start_date` / `end_date`
query strings.  No role-based narrowing is applied. -/
def get_logs (logs : List ServiceLog) (hasSalon : Bool) (salon_id : String)
    (start_date end_date : Option String) : LogsResp :=
  if !hasSalon then ⟨404, some "No salon found", []⟩
  else
    let q1 := logs.filter (fun l => l.salon_id == salon_id)
    let q2 := match start_date with
      | some s => q1.filter (fun l => strLe s (isoDateString (utcDateOf l.served_at)))
      | none => q1
    let q3 := match end_date with
      | some s => q2.filter (fun l => strLe (isoDateString (utcDateOf l.served_at)) s)
      | none => q2
    ⟨200, none, q3⟩

/-- `GET /api/summary`: totals over the day range of the bound salon,
narrowed to the caller's own `Staff` row when the caller's role is STAFF.
Subtotals test the lower-cased payment method against "cash" / "upi". -/
def get_summary (tz : Tz) (logs : List ServiceLog) (staffs : List Staff)
    (hasSalon : Bool) (salon_id : String) (role : String) (userId : String)
    (dateParam : Option String) (todayLocal : PDate) : SummaryResp :=
  if !hasSalon then ⟨404, some "No salon found", 0, 0, 0, 0⟩
  else
    match parseDateParam dateParam with
    | none => ⟨400, some "Invalid date format. Use YYYY-MM-DD", 0, 0, 0, 0⟩
    | some target =>
      let r := get_day_range_utc tz target todayLocal
      let base := logs.filter (fun l =>
        l.salon_id == salon_id && decide (r.1 ≤ l.served_at) &&
          decide (l.served_at ≤ r.2))
      let sel :=
        if role == "STAFF" then
          match findStaffByUser staffs userId with
          | some st => base.filter (fun l => l.staff_id == some st.id)
          | none => base
        else base
      ⟨200, none, sumPrices sel,
        sumPrices (sel.filter (fun l => lowerStr l.payment_method == "cash")),
        sumPrices (sel.filter (fun l => lowerStr l.payment_method == "upi")),
        sel.length⟩

-- ===========================================================
-- Grouped reports and analytics
-- ===========================================================

/-- `services` row (fields read by the handlers). -/
structure Service where
  id : String
  salon_id : String
  name : String
  default_price : Int
  is_active : Bool
  sort_order : Int
deriving DecidableEq

/-- `GET /api/summary/breakdown`: per-service revenue over the day range;
inner join on `service_id`, so custom-service logs are excluded. -/
def get_service_breakdown (tz : Tz) (services : List Service)
    (logs : List ServiceLog) (hasSalon : Bool) (salon_id : String)
    (dateParam : Option String) (todayLocal : PDate) : BreakdownResp :=
  if !hasSalon then ⟨404, some "No salon found", []⟩
  else
    match parseDateParam dateParam with
    | none => ⟨400, some "Invalid date format", []⟩
    | some target =>
      let r := get_day_range_utc tz target todayLocal
      let joined := logs.filterMap (fun l =>
        if l.salon_id == salon_id && decide (r.1 ≤ l.served_at) &&
            decide (l.served_at ≤ r.2) then
          (services.find? (fun sv => some sv.id == l.service_id)).map
            (fun sv => (sv.name, l))
        else none)
      let names := (joined.map (fun p => p.1)).dedup
      ⟨200, none, names.map (fun nm =>
        let rows := joined.filter (fun p => p.1 == nm)
        (nm, rows.length, (rows.map (fun p => p.2.price)).sum))⟩

/-- `GET /api/summary/staff-performance` (owner-only): per-staff revenue
over the day range; inner join on `staff_id`. -/
def get_staff_performance (tz : Tz) (staffs : List Staff)
    (logs : List ServiceLog) (hasSalon : Bool) (role : String)
    (salon_id : String) (dateParam : Option String) (todayLocal : PDate) :
    BreakdownResp :=
  if !hasSalon then ⟨404, some "No salon found", []⟩
  else if !(role == "OWNER") then ⟨403, some "Unauthorized", []⟩
  else
    match parseDateParam dateParam with
    | none => ⟨400, some "Invalid date format", []⟩
    | some target =>
      let r := get_day_range_utc tz target todayLocal
      let joined := logs.filterMap (fun l =>
        if l.salon_id == salon_id && decide (r.1 ≤ l.served_at) &&
            decide (l.served_at ≤ r.2) then
          (staffs.find? (fun st => some st.id == l.staff_id)).map
            (fun st => (st.name, l))
        else none)
      let names := (joined.map (fun p => p.1)).dedup
      ⟨200, none, names.map (fun nm =>
        let rows := joined.filter (fun p => p.1 == nm)
        (nm, rows.length, (rows.map (fun p => p.2.price)).sum))⟩

/-- UTC range of a salon-local calendar month: local first-of-month
midnight to one second before the next month's first midnight
(`next_month_start - timedelta(seconds=1)`). -/
def monthlyRangeUtc (tz : Tz) (year month : Int) : Int × Int :=
  let startLocal := daysFromCivil year month 1 * usPerDay
  let nextStart :=
    if month == 12 then daysFromCivil (year + 1) 1 1 * usPerDay
    else daysFromCivil year (month + 1) 1 * usPerDay
  let endLocal := nextStart - usPerSecond
  (startLocal - tz.offsetOfLocal startLocal, endLocal - tz.offsetOfLocal endLocal)

/-- Revenue of day-of-month `d` in the monthly analytics: the grouping loop
`daily_data[day] += price` over the range-filtered logs, read back with
`daily_data.get(d, 0)`. -/
def monthlyDailyData (tz : Tz) (logs : List ServiceLog) (salon_id : String)
    (year month d : Int) : Int :=
  let r := monthlyRangeUtc tz year month
  sumPrices ((logs.filter (fun l => l.salon_id == salon_id &&
    decide (r.1 ≤ l.served_at) && decide (l.served_at ≤ r.2))).filter
    (fun l => localDayOfMonth tz l.served_at == d))

/-- `GET /api/analytics/monthly` (owner-only): dense per-day revenue series
for one salon-local month plus the grand total accumulated in the same
loop. -/
def get_monthly_analytics (tz : Tz) (logs : List ServiceLog)
    (hasSalon : Bool) (role : String) (salon_id : String) (year month : Int) :
    ChartResp :=
  if !hasSalon then ⟨404, some "No salon found", [], 0⟩
  else if !(role == "OWNER") then ⟨403, some "Unauthorized", [], 0⟩
  else
    let numDays := (monthrange year month).toNat
    let chart := (List.range numDays).map (fun (i : Nat) =>
      (toString (i + 1),
        monthlyDailyData tz logs salon_id year month ((i : Int) + 1)))
    let total := ((List.range numDays).map (fun (i : Nat) =>
      monthlyDailyData tz logs salon_id year month ((i : Int) + 1))).sum
    ⟨200, none, chart, total⟩

/-- UTC range of a salon-local calendar year: local Jan 1 midnight to local
Dec 31 23:59:59. -/
def yearlyRangeUtc (tz : Tz) (year : Int) : Int × Int :=
  let startLocal := daysFromCivil year 1 1 * usPerDay
  let endLocal := daysFromCivil year 12 31 * usPerDay + usPerDay - usPerSecond
  (startLocal - tz.offsetOfLocal startLocal, endLocal - tz.offsetOfLocal endLocal)

/-- Revenue of month `m` in the yearly analytics. -/
def yearlyMonthData (tz : Tz) (logs : List ServiceLog) (salon_id : String)
    (year m : Int) : Int :=
  let r := yearlyRangeUtc tz year
  sumPrices ((logs.filter (fun l => l.salon_id == salon_id &&
    decide (r.1 ≤ l.served_at) && decide (l.served_at ≤ r.2))).filter
    (fun l => localMonthOf tz l.served_at == m))

/-- Month labels of the yearly chart. -/
def monthNames : List String :=
  ["Jan", "Feb", "Mar", "Apr", "May", "Jun",
   "Jul", "Aug", "Sep", "Oct", "Nov", "Dec"]

/-- `GET /api/analytics/yearly` (owner-only): dense per-month revenue series
for one salon-local year plus the grand total. -/
def get_yearly_analytics (tz : Tz) (logs : List ServiceLog)
    (hasSalon : Bool) (role : String) (salon_id : String) (year : Int) :
    ChartResp :=
  if !hasSalon then ⟨404, some "No salon found", [], 0⟩
  else if !(role == "OWNER") then ⟨403, some "Unauthorized", [], 0⟩
  else
    let chart := (List.range 12).map (fun (i : Nat) =>
      (monthNames.getD i "", yearlyMonthData tz logs salon_id year ((i : Int) + 1)))
    let total := ((List.range 12).map (fun (i : Nat) =>
      yearlyMonthData tz logs salon_id year ((i : Int) + 1))).sum
    ⟨200, none, chart, total⟩

-- ===========================================================
-- Write endpoints
-- ===========================================================

/-- `POST /api/logs`: validation (`price` truthy, `payment_method` present
and in `{cash, upi}`) followed by an insert.  `salon_id` is always the
caller's bound salon; `served_at` defaults to `datetime.utcnow()`. -/
def add_service_log (logs : List ServiceLog) (hasSalon : Bool)
    (salon_id : String) (staff_id service_id custom_service : Option String)
    (price : Option Int) (payment_method : Option String)
    (served_at : Option Int) (nowUtc : Int) (newId : String) :
    ApiResp × List ServiceLog :=
  if !hasSalon then (⟨404, some "No salon found"⟩, logs)
  else if price.getD 0 == 0 || payment_method.getD "" == "" then
    (⟨400, some "Price and payment method are required"⟩, logs)
  else if !(payment_method.getD "" == "cash" || payment_method.getD "" == "upi") then
    (⟨400, some "Payment method must be cash or upi"⟩, logs)
  else
    (⟨201, none⟩, logs ++ [⟨newId, salon_id, staff_id, service_id,
      custom_service, price.getD 0, payment_method.getD "",
      served_at.getD nowUtc⟩])

/-- `DailyClosing.query.filter_by(salon_id=..., date=...).first()` viewed as
an existence test. -/
def closingKeyExists (closings : List DailyClosing) (salon_id : String)
    (d : PDate) : Bool :=
  closings.any (fun c => c.salon_id == salon_id && decide (c.date = d))

/-- Body of `POST /api/daily-closing` after the date is resolved: duplicate
check, then totals over the logs whose stored UTC date component equals the
closing date (`func.date(served_at) == closing_date`), then the insert.
The cash/upi filters here compare the raw payment-method string (no
lower-casing, unlike `GET /api/summary`). -/
def closeDayCore (logs : List ServiceLog) (closings : List DailyClosing)
    (salon_id : String) (d : PDate) (nowUtc : Int) (newId : String) :
    ApiResp × List DailyClosing :=
  if closingKeyExists closings salon_id d then
    (⟨400, some "Daily closing already exists for this date"⟩, closings)
  else
    let sel := logs.filter (fun l =>
      l.salon_id == salon_id && decide (utcDateOf l.served_at = d))
    (⟨201, none⟩, closings ++ [⟨newId, salon_id, d, nowUtc,
      sumPrices sel,
      sumPrices (sel.filter (fun l => l.payment_method == "cash")),
      sumPrices (sel.filter (fun l => l.payment_method == "upi"))⟩])

/-- `POST /api/daily-closing`.  The `date.fromisoformat(data['date'])` call
sits outside the handler's `try` block, so a malformed date string raises
an uncaught `ValueError`, which Flask surfaces as a 500 response (embedded
here as the status-500 branch).  An absent date defaults to
`date.today()` (the server's local date, `todayServer`). -/
def create_daily_closing (logs : List ServiceLog)
    (closings : List DailyClosing) (hasSalon : Bool) (salon_id : String)
    (dateParam : Option String) (todayServer : PDate) (nowUtc : Int)
    (newId : String) : ApiResp × List DailyClosing :=
  if !hasSalon then (⟨404, some "No salon found"⟩, closings)
  else
    match dateParam with
    | some s =>
      match parseDate s with
      | none => (⟨500, some "Internal Server Error"⟩, closings)
      | some d => closeDayCore logs closings salon_id d nowUtc newId
    | none => closeDayCore logs closings salon_id todayServer nowUtc newId

/-- `POST /api/staff` (owner-only): invitation insert with required name and
email and an active-duplicate check scoped to the salon. -/
def create_staff (staffs : List Staff) (hasSalon : Bool) (role : String)
    (salon_id : String) (name email phone roleLabel : Option String)
    (newId : String) : ApiResp × List Staff :=
  if !hasSalon then (⟨404, some "No salon found"⟩, staffs)
  else if !(role == "OWNER") then
    (⟨403, some "Only salon owners can manage staff"⟩, staffs)
  else if name.getD "" == "" then
    (⟨400, some "Name is required"⟩, staffs)
  else if email.getD "" == "" then
    (⟨400, some "Email is required for invitation"⟩, staffs)
  else if staffs.any (fun st => st.salon_id == salon_id &&
      st.email == some (email.getD "") && st.is_active) then
    (⟨400, some "Staff with this email already exists"⟩, staffs)
  else
    (⟨201, none⟩, staffs ++ [⟨newId, salon_id, name.getD "",
      some (email.getD ""), phone, roleLabel.getD "Stylist", none, true⟩])

/-- Deactivate the first staff row matching id and salon (the row found by
`filter_by(id=..., salon_id=...).first()`). -/
def deactivateFirstStaff : List Staff → String → String → List Staff
  | [], _, _ => []
  | st :: rest, sid, salid =>
    if st.id == sid && st.salon_id == salid then
      ⟨st.id, st.salon_id, st.name, st.email, st.phone, st.role,
        st.user_id, false⟩ :: rest
    else st :: deactivateFirstStaff rest sid salid

/-- `DELETE /api/staff/{id}` (owner-only): soft delete via `is_active`. -/
def delete_staff (staffs : List Staff) (hasSalon : Bool) (role : String)
    (salon_id : String) (staff_id : String) : ApiResp × List Staff :=
  if !hasSalon then (⟨404, some "No salon found"⟩, staffs)
  else if !(role == "OWNER") then
    (⟨403, some "Only salon owners can manage staff"⟩, staffs)
  else if staffs.any (fun st => st.id == staff_id && st.salon_id == salon_id) then
    (⟨200, none⟩, deactivateFirstStaff staffs staff_id salon_id)
  else (⟨404, some "Staff member not found"⟩, staffs)

-- ===========================================================
-- Tenant binding (`POST /api/auth/sync-profile`)
-- ===========================================================

/-- Set `user_id` on the first staff row whose email matches (the row that
`Staff.query.filter_by(email=email).first()` returns). -/
def setUserIdFirst : List Staff → Option String → String → List Staff
  | [], _, _ => []
  | st :: rest, email, uid =>
    if st.email == email then
      ⟨st.id, st.salon_id, st.name, st.email, st.phone, st.role,
        some uid, st.is_active⟩ :: rest
    else st :: setUserIdFirst rest email uid

/-- Result of `sync_profile`: status, the role of the (found or created)
user, and the three tables after the request. -/
structure SyncResult where
  status : Int
  roleAssigned : Option String
  users : List User
  staffs : List Staff
  salons : List Salon
deriving DecidableEq

/-- `POST /api/auth/sync-profile`.  On first contact (no `User` with the
claim's `sub`), the invited-staff lookup is
`Staff.query.filter_by(email=email).first()` — it filters on email only —
and its success decides the role.  STAFF: the found row's `user_id` is set
and no salon is created.  OWNER: a salon is created from the optional
payload with defaults name "My Salon", address "", timezone
"Asia/Kolkata". -/
def sync_profile (users : List User) (staffs : List Staff)
    (salons : List Salon) (sub : String) (email phone : Option String)
    (payloadName payloadAddr payloadTz : Option String)
    (newUserId newSalonId : String) : SyncResult :=
  match users.find? (fun u => u.cognito_sub == sub) with
  | some u => ⟨200, some u.role, users, staffs, salons⟩
  | none =>
    match staffs.find? (fun st => st.email == email) with
    | some _ =>
      ⟨201, some "STAFF",
        users ++ [⟨newUserId, sub, email, phone, "STAFF"⟩],
        setUserIdFirst staffs email newUserId, salons⟩
    | none =>
      ⟨201, some "OWNER",
        users ++ [⟨newUserId, sub, email, phone, "OWNER"⟩], staffs,
        salons ++ [⟨newSalonId, newUserId, payloadName.getD "My Salon",
          payloadAddr.getD "", payloadTz.getD "Asia/Kolkata"⟩]⟩

-- ===========================================================
-- Identity resolver (`app/auth.py` + `app/config.py`)
-- ===========================================================

/-- The Cognito-relevant part of `Config`, built from the process
environment exactly as `config.py` does: `COGNITO_REGION` defaults to
"us-east-1" when the variable is absent, `FLASK_ENV` defaults to
"development", and the pool/client ids have no default. -/
structure CognitoConfig where
  env : String
  region : String
  userPoolId : Option String
  appClientId : Option String
deriving DecidableEq

/-- `config.py`: `os.environ.get` with the defaults used there. -/
def configFromEnv (envDict : String → Option String) : CognitoConfig :=
  ⟨(envDict "FLASK_ENV").getD "development",
   (envDict "COGNITO_REGION").getD "us-east-1",
   envDict "COGNITO_USER_POOL_ID",
   envDict "COGNITO_APP_CLIENT_ID"⟩

/-- Python truthiness of an optional string: `None` and `""` are falsy. -/
def falsyOpt : Option String → Bool
  | none => true
  | some s => s == ""

/-- Outcome of `verify_cognito_token` before any network interaction:
either the hard-coded development claims, a raised configuration error, or
continuation into the JWKS signature/expiry/audience verification (which
talks to the external identity provider and is not modelled further; it
depends on the concrete token). -/
inductive VerifyOutcome where
  | claims (sub : String) (email : String)
  | errorMsg (msg : String)
  | jwksVerification (token : String)
deriving DecidableEq

/-- The configuration-checking prefix of `verify_cognito_token`: the
development bypass fires only when the configured region is falsy AND
`ENV == 'development'`; a falsy region or pool id otherwise raises
"Cognito configuration missing". -/
def verify_cognito_token (cfg : CognitoConfig) (token : String) :
    VerifyOutcome :=
  if cfg.region == "" || falsyOpt cfg.userPoolId then
    if cfg.env == "development" && cfg.region == "" then
      .claims "dev-user" "dev@example.com"
    else .errorMsg "Cognito configuration missing"
  else .jwksVerification token

-- ===========================================================
-- Claim theorems
-- ===========================================================

/-- C10 counterexample: with `ENV = 'development'` and `COGNITO_REGION` not
set in the environment, `config.py` defaults the region to "us-east-1", so
`verify_cognito_token` does NOT return the fixed development claims — it
raises "Cognito configuration missing" (the pool id is absent), for any
bearer token. -/
theorem c10_counterexample :
    (configFromEnv (fun _ => none)).env = "development" ∧
    (configFromEnv (fun _ => none)).region = "us-east-1" ∧
    verify_cognito_token (configFromEnv (fun _ => none)) "any-token" =
      .errorMsg "Cognito configuration missing" ∧
    verify_cognito_token (configFromEnv (fun _ => none)) "any-token" ≠
      .claims "dev-user" "dev@example.com" := by
  refine ⟨rfl, rfl, rfl, ?_⟩
  decide

/-- C10 (amended): the development bypass fires when the configured
`COGNITO_REGION` is the empty string (the environment variable set to "",
not merely unset) and `ENV = 'development'`; then every token — with no
signature, expiration or audience check — yields the same fixed claims
`{sub: 'dev-user', email: 'dev@example.com'}`, so any two distinct bearer
tokens produce identical authentication results. -/
theorem c10_dev_bypass_amended (envDict : String → Option String)
    (t1 t2 : String)
    (hregion : envDict "COGNITO_REGION" = some "")
    (henv : (envDict "FLASK_ENV").getD "development" = "development") :
    verify_cognito_token (configFromEnv envDict) t1 =
      .claims "dev-user" "dev@example.com" ∧
    verify_cognito_token (configFromEnv envDict) t1 =
      verify_cognito_token (configFromEnv envDict) t2 := by
  have h : ∀ t, verify_cognito_token (configFromEnv envDict) t =
      .claims "dev-user" "dev@example.com" := by
    intro t
    simp [verify_cognito_token, configFromEnv, hregion, henv, falsyOpt]
  exact ⟨h t1, (h t1).trans (h t2).symm⟩

/-- C10 witness: a concrete environment with `COGNITO_REGION=""` satisfies
the amended theorem's hypotheses, and two distinct tokens authenticate
identically. -/
theorem c10_witness :
    (fun v => if v = "COGNITO_REGION" then some "" else none) "COGNITO_REGION" =
      some "" ∧
    verify_cognito_token
      (configFromEnv (fun v => if v = "COGNITO_REGION" then some "" else none))
      "tokenA" = .claims "dev-user" "dev@example.com" ∧
    verify_cognito_token
      (configFromEnv (fun v => if v = "COGNITO_REGION" then some "" else none))
      "tokenA" =
    verify_cognito_token
      (configFromEnv (fun v => if v = "COGNITO_REGION" then some "" else none))
      "tokenB" := by
  have h := c10_dev_bypass_amended
    (fun v => if v = "COGNITO_REGION" then some "" else none)
    "tokenA" "tokenB" (by decide) (by decide)
  exact ⟨by decide, h.1, h.2⟩

/-- C2: at most one `DailyClosing` per (salon, date): `POST
/api/daily-closing` preserves the at-most-one-row-per-(salon_id, date)
invariant, and when a closing for the requested (salon, date) already
exists the request fails with status 400 and the exact message "Daily
closing already exists for this date", inserts no new row, and leaves
every existing row — in particular the existing snapshot's fields —
unchanged. -/
theorem c2_daily_closing_unique (logs : List ServiceLog)
    (closings : List DailyClosing) (salon_id s : String)
    (d todayServer : PDate) (nowUtc : Int) (newId : String)
    (hparse : parseDate s = some d) :
    (closingKeyExists closings salon_id d = true →
      (create_daily_closing logs closings true salon_id (some s) todayServer
        nowUtc newId).1 =
        ⟨400, some "Daily closing already exists for this date"⟩ ∧
      (create_daily_closing logs closings true salon_id (some s) todayServer
        nowUtc newId).2 = closings) ∧
    ((∀ S D, (closings.filter
        (fun c => c.salon_id == S && decide (c.date = D))).length ≤ 1) →
      ∀ S D, (((create_daily_closing logs closings true salon_id (some s)
        todayServer nowUtc newId).2).filter
        (fun c => c.salon_id == S && decide (c.date = D))).length ≤ 1) := by
  constructor
  · intro hex
    simp [create_daily_closing, hparse, closeDayCore, hex]
  · intro hu S D
    by_cases hex : closingKeyExists closings salon_id d
    · simpa [create_daily_closing, hparse, closeDayCore, hex] using hu S D
    · simp only [Bool.not_eq_true] at hex
      simp only [create_daily_closing, hparse, closeDayCore, hex,
        Bool.not_true, Bool.false_eq_true, if_false]
      rw [List.filter_append, List.length_append]
      simp only [closingKeyExists, List.any_eq_false] at hex
      by_cases hm : (salon_id == S && decide (d = D)) = true
      · have hS : salon_id = S := by
          have h2 := hm
          simp only [Bool.and_eq_true, beq_iff_eq, decide_eq_true_eq] at h2
          exact h2.1
        have hD : d = D := by
          have h2 := hm
          simp only [Bool.and_eq_true, beq_iff_eq, decide_eq_true_eq] at h2
          exact h2.2
        have hnil : List.filter (fun c => c.salon_id == S && decide (c.date = D))
            closings = [] := by
          rw [List.filter_eq_nil_iff]
          intro c hc
          rw [← hS, ← hD]
          exact hex c hc
        simp [hnil, List.filter, hm]
      · simp only [Bool.not_eq_true] at hm
        simp only [List.filter, hm, List.length_nil]
        simpa using hu S D

/-- Closing row used by the C2 witness. -/
def c2SampleClosing : DailyClosing :=
  ⟨"c0", "sa1", ⟨2024, 3, 15⟩, 0, 35000, 20000, 15000⟩

/-- C2 witness: with an existing closing for ("sa1", 2024-03-15), a second
request for the same date returns 400 with the exact message and leaves the
table unchanged. -/
theorem c2_witness :
    parseDate "2024-03-15" = some ⟨2024, 3, 15⟩ ∧
    closingKeyExists [c2SampleClosing] "sa1" ⟨2024, 3, 15⟩ = true ∧
    (create_daily_closing [] [c2SampleClosing] true "sa1" (some "2024-03-15")
      ⟨2024, 1, 1⟩ 0 "c1").1 =
      ⟨400, some "Daily closing already exists for this date"⟩ ∧
    (create_daily_closing [] [c2SampleClosing] true "sa1" (some "2024-03-15")
      ⟨2024, 1, 1⟩ 0 "c1").2 = [c2SampleClosing] := by
  have h := c2_daily_closing_unique [] [c2SampleClosing] "sa1" "2024-03-15"
    ⟨2024, 3, 15⟩ ⟨2024, 1, 1⟩ 0 "c1" (by decide)
  exact ⟨by decide, by decide, (h.1 (by decide)).1, (h.1 (by decide)).2⟩

/-- Unfolding lemma for `sumPrices`. -/
theorem sumPrices_cons (a : ServiceLog) (t : List ServiceLog) :
    sumPrices (a :: t) = a.price + sumPrices t := by
  simp [sumPrices]

/-- Splitting a price sum along a two-valued key: when every log's key is
"cash" or "upi", the total is the cash-filtered sum plus the upi-filtered
sum. -/
theorem sumPrices_split (f : ServiceLog → String) (ls : List ServiceLog)
    (h : ∀ l ∈ ls, f l = "cash" ∨ f l = "upi") :
    sumPrices ls = sumPrices (ls.filter (fun l => f l == "cash")) +
      sumPrices (ls.filter (fun l => f l == "upi")) := by
  induction ls with
  | nil => simp [sumPrices]
  | cons a t ih =>
    have ha := h a (List.mem_cons_self a t)
    have ht : ∀ l ∈ t, f l = "cash" ∨ f l = "upi" :=
      fun l hl => h l (List.mem_cons_of_mem a hl)
    rcases ha with hc | hu
    · rw [List.filter_cons_of_pos (by simp [hc]),
        List.filter_cons_of_neg (by simp [hc]),
        sumPrices_cons, sumPrices_cons, ih ht]
      ring
    · rw [List.filter_cons_of_neg (by simp [hu]),
        List.filter_cons_of_pos (by simp [hu]),
        sumPrices_cons, sumPrices_cons, ih ht]
      ring

/-- A zero-offset timezone (constant offsets, like UTC). -/
def flatTz : Tz := ⟨fun _ => 0, fun _ => 0⟩


/-- The day-range log selection of `GET /api/summary` for an OWNER caller:
salon-scoped rows within the resolved UTC day range. -/
def summaryRangeLogs (tz : Tz) (logs : List ServiceLog) (salon_id : String)
    (target : Option PDate) (todayLocal : PDate) : List ServiceLog :=
  logs.filter (fun l => l.salon_id == salon_id &&
    decide ((get_day_range_utc tz target todayLocal).1 ≤ l.served_at) &&
    decide (l.served_at ≤ (get_day_range_utc tz target todayLocal).2))

/-- C3 (amended): for every log set, the `/api/summary` response for an
OWNER caller has `total_revenue` equal to the sum of `price` over all rows
in the resolved UTC range, and `cash_total` / `upi_total` equal to the sums
over only the rows whose lower-cased payment method is exactly "cash" /
"upi" — so a row with any other payment-method string contributes to
`total_revenue` but to neither subtotal — and `total_revenue = cash_total +
upi_total` holds whenever all payment methods are in {cash, upi}.  The
claim's converse direction ("exactly when") fails: see
`c3_counterexample`. -/
theorem c3_summary_totals_amended (tz : Tz) (logs : List ServiceLog)
    (staffs : List Staff) (salon_id uid s : String) (D todayLocal : PDate)
    (hparse : parseDate s = some D) :
    (get_summary tz logs staffs true salon_id "OWNER" uid (some s)
      todayLocal).total_revenue =
      sumPrices (summaryRangeLogs tz logs salon_id (some D) todayLocal) ∧
    (get_summary tz logs staffs true salon_id "OWNER" uid (some s)
      todayLocal).cash_total =
      sumPrices ((summaryRangeLogs tz logs salon_id (some D) todayLocal).filter
        (fun l => lowerStr l.payment_method == "cash")) ∧
    (get_summary tz logs staffs true salon_id "OWNER" uid (some s)
      todayLocal).upi_total =
      sumPrices ((summaryRangeLogs tz logs salon_id (some D) todayLocal).filter
        (fun l => lowerStr l.payment_method == "upi")) ∧
    (get_summary tz logs staffs true salon_id "OWNER" uid (some s)
      todayLocal).transaction_count =
      (summaryRangeLogs tz logs salon_id (some D) todayLocal).length ∧
    ((∀ l ∈ summaryRangeLogs tz logs salon_id (some D) todayLocal,
        lowerStr l.payment_method = "cash" ∨ lowerStr l.payment_method = "upi") →
      (get_summary tz logs staffs true salon_id "OWNER" uid (some s)
        todayLocal).total_revenue =
        (get_summary tz logs staffs true salon_id "OWNER" uid (some s)
          todayLocal).cash_total +
        (get_summary tz logs staffs true salon_id "OWNER" uid (some s)
          todayLocal).upi_total) := by
  have hresp : get_summary tz logs staffs true salon_id "OWNER" uid (some s)
      todayLocal =
      ⟨200, none, sumPrices (summaryRangeLogs tz logs salon_id (some D) todayLocal),
        sumPrices ((summaryRangeLogs tz logs salon_id (some D) todayLocal).filter
          (fun l => lowerStr l.payment_method == "cash")),
        sumPrices ((summaryRangeLogs tz logs salon_id (some D) todayLocal).filter
          (fun l => lowerStr l.payment_method == "upi")),
        (summaryRangeLogs tz logs salon_id (some D) todayLocal).length⟩ := by
    simp [get_summary, parseDateParam, hparse, summaryRangeLogs]
  refine ⟨by rw [hresp], by rw [hresp], by rw [hresp], by rw [hresp], ?_⟩
  intro hpm
  rw [hresp]
  exact sumPrices_split (fun l => lowerStr l.payment_method) _ hpm

/-- Row used by the C3 counterexample: a zero-price "card" log inside the
queried day. -/
def c3CardLog : ServiceLog :=
  ⟨"l1", "sa1", none, none, none, 0, "card", dayStartLocal ⟨2024, 1, 15⟩ + 1000⟩

/-- C3 counterexample: with a single zero-price "card" row in range,
`total_revenue = cash_total + upi_total` holds (0 = 0 + 0) although not all
payment methods are in {cash, upi} — refuting the claim's "exactly when"
biconditional at a concrete input. -/
theorem c3_counterexample :
    (get_summary flatTz [c3CardLog] [] true "sa1" "OWNER" "u1"
      (some "2024-01-15") ⟨2024, 1, 15⟩).total_revenue =
      (get_summary flatTz [c3CardLog] [] true "sa1" "OWNER" "u1"
        (some "2024-01-15") ⟨2024, 1, 15⟩).cash_total +
      (get_summary flatTz [c3CardLog] [] true "sa1" "OWNER" "u1"
        (some "2024-01-15") ⟨2024, 1, 15⟩).upi_total ∧
    (get_summary flatTz [c3CardLog] [] true "sa1" "OWNER" "u1"
      (some "2024-01-15") ⟨2024, 1, 15⟩).transaction_count = 1 ∧
    lowerStr c3CardLog.payment_method ≠ "cash" ∧
    lowerStr c3CardLog.payment_method ≠ "upi" := by
  decide

/-- Cash row used by the C3 witness. -/
def c3CashLog : ServiceLog :=
  ⟨"l2", "sa1", none, none, none, 20000, "cash", dayStartLocal ⟨2024, 1, 15⟩ + 2000⟩

/-- Upi row used by the C3 witness. -/
def c3UpiLog : ServiceLog :=
  ⟨"l3", "sa1", none, none, none, 15000, "upi", dayStartLocal ⟨2024, 1, 15⟩ + 3000⟩

/-- C3 witness: the spec's own scenario — a 200.00 cash log and a 150.00
upi log — satisfies the amended theorem's hypotheses and yields
`total_revenue = cash_total + upi_total`. -/
theorem c3_witness :
    parseDate "2024-01-15" = some ⟨2024, 1, 15⟩ ∧
    (get_summary flatTz [c3CashLog, c3UpiLog] [] true "sa1" "OWNER" "u1"
      (some "2024-01-15") ⟨2024, 1, 15⟩).total_revenue =
      (get_summary flatTz [c3CashLog, c3UpiLog] [] true "sa1" "OWNER" "u1"
        (some "2024-01-15") ⟨2024, 1, 15⟩).cash_total +
      (get_summary flatTz [c3CashLog, c3UpiLog] [] true "sa1" "OWNER" "u1"
        (some "2024-01-15") ⟨2024, 1, 15⟩).upi_total := by
  have h := c3_summary_totals_amended flatTz [c3CashLog, c3UpiLog] [] "sa1" "u1"
    "2024-01-15" ⟨2024, 1, 15⟩ ⟨2024, 1, 15⟩ (by decide)
  exact ⟨by decide, h.2.2.2.2 (by decide)⟩

/-- The logs a daily closing aggregates: salon-scoped rows whose stored UTC
date component equals the closing date
(`func.date(ServiceLog.served_at) == closing_date`). -/
def closingLogs (logs : List ServiceLog) (salon_id : String) (d : PDate) :
    List ServiceLog :=
  logs.filter (fun l => l.salon_id == salon_id &&
    decide (utcDateOf l.served_at = d))

/-- C9: a daily closing created by `POST /api/daily-closing` stores
`total_revenue`, `cash_total` and `upi_total` all computed from the same
log set selected at creation time — the salon's rows keyed on the UTC date
component of `served_at` — and when every selected row's payment method is
in {cash, upi} (which is what `POST /api/logs` enforces at log creation:
final conjunct), `total_revenue = cash_total + upi_total`. -/
theorem c9_closing_totals (logs : List ServiceLog)
    (closings : List DailyClosing) (salon_id s : String)
    (d todayServer : PDate) (nowUtc : Int) (newId : String)
    (hparse : parseDate s = some d)
    (hnone : closingKeyExists closings salon_id d = false)
    (hpm : ∀ l ∈ closingLogs logs salon_id d,
      l.payment_method = "cash" ∨ l.payment_method = "upi") :
    (create_daily_closing logs closings true salon_id (some s) todayServer
      nowUtc newId).2 =
      closings ++ [⟨newId, salon_id, d, nowUtc,
        sumPrices (closingLogs logs salon_id d),
        sumPrices ((closingLogs logs salon_id d).filter
          (fun l => l.payment_method == "cash")),
        sumPrices ((closingLogs logs salon_id d).filter
          (fun l => l.payment_method == "upi"))⟩] ∧
    sumPrices (closingLogs logs salon_id d) =
      sumPrices ((closingLogs logs salon_id d).filter
        (fun l => l.payment_method == "cash")) +
      sumPrices ((closingLogs logs salon_id d).filter
        (fun l => l.payment_method == "upi")) ∧
    (∀ (logs0 : List ServiceLog) (hasS : Bool) (sid : String)
        (a b c : Option String) (pr : Option Int) (pm : Option String)
        (sa : Option Int) (now2 : Int) (nid : String),
      (add_service_log logs0 hasS sid a b c pr pm sa now2 nid).1.status = 201 →
      pm.getD "" = "cash" ∨ pm.getD "" = "upi") := by
  refine ⟨?_, ?_, ?_⟩
  · simp [create_daily_closing, hparse, closeDayCore, hnone, closingLogs]
  · exact sumPrices_split (fun l => l.payment_method) _ hpm
  · intro logs0 hasS sid a b c pr pm sa now2 nid h201
    simp only [add_service_log] at h201
    split_ifs at h201 with h1 h2 h3
    · simp at h201
    · simp at h201
    · simp at h201
    · have h4 : (pm.getD "" == "cash" || pm.getD "" == "upi") = true := by
        cases hcase : (pm.getD "" == "cash" || pm.getD "" == "upi") <;>
          simp [hcase] at h3 ⊢
      simp only [Bool.or_eq_true, beq_iff_eq] at h4
      exact h4

/-- Cash row used by the C9 witness (on the 2024 leap day). -/
def c9CashLog : ServiceLog :=
  ⟨"l1", "sa1", none, none, none, 20000, "cash",
    dayStartLocal ⟨2024, 2, 29⟩ + 1000⟩

/-- Upi row used by the C9 witness. -/
def c9UpiLog : ServiceLog :=
  ⟨"l2", "sa1", none, none, none, 15000, "upi",
    dayStartLocal ⟨2024, 2, 29⟩ + 2000⟩

/-- C9 witness: closing 2024-02-29 over one cash and one upi log stores
totals 350.00 = 200.00 + 150.00 from the same UTC-date-keyed set. -/
theorem c9_witness :
    parseDate "2024-02-29" = some ⟨2024, 2, 29⟩ ∧
    (create_daily_closing [c9CashLog, c9UpiLog] [] true "sa1"
      (some "2024-02-29") ⟨2024, 1, 1⟩ 7 "c1").2 =
      [⟨"c1", "sa1", ⟨2024, 2, 29⟩, 7, 35000, 20000, 15000⟩] ∧
    sumPrices (closingLogs [c9CashLog, c9UpiLog] "sa1" ⟨2024, 2, 29⟩) =
      sumPrices ((closingLogs [c9CashLog, c9UpiLog] "sa1" ⟨2024, 2, 29⟩).filter
        (fun l => l.payment_method == "cash")) +
      sumPrices ((closingLogs [c9CashLog, c9UpiLog] "sa1" ⟨2024, 2, 29⟩).filter
        (fun l => l.payment_method == "upi")) := by
  have h := c9_closing_totals [c9CashLog, c9UpiLog] [] "sa1" "2024-02-29"
    ⟨2024, 2, 29⟩ ⟨2024, 1, 1⟩ 7 "c1" (by decide) (by decide) (by decide)
  refine ⟨by decide, ?_, h.2.1⟩
  rw [h.1]
  decide

/-- C8: with a bound salon, a caller whose role is not OWNER receives a 403
from each of `POST /api/staff`, `DELETE /api/staff/{id}`,
`GET /api/summary/staff-performance`, `GET /api/analytics/monthly` and
`GET /api/analytics/yearly`, and no write to the staff table happens (the
report endpoints perform no writes by construction); an OWNER caller with a
bound salon never receives a 403 from any of them. -/
theorem c8_owner_only_endpoints (tz : Tz) (staffs : List Staff)
    (logs : List ServiceLog) (role salon_id staff_id newId : String)
    (name email phone roleLabel : Option String) (dateParam : Option String)
    (todayLocal : PDate) (year month : Int)
    (hrole : role ≠ "OWNER") :
    ((create_staff staffs true role salon_id name email phone roleLabel
        newId).1.status = 403 ∧
      (create_staff staffs true role salon_id name email phone roleLabel
        newId).2 = staffs) ∧
    ((delete_staff staffs true role salon_id staff_id).1.status = 403 ∧
      (delete_staff staffs true role salon_id staff_id).2 = staffs) ∧
    (get_staff_performance tz staffs logs true role salon_id dateParam
      todayLocal).status = 403 ∧
    (get_monthly_analytics tz logs true role salon_id year month).status = 403 ∧
    (get_yearly_analytics tz logs true role salon_id year).status = 403 ∧
    (create_staff staffs true "OWNER" salon_id name email phone roleLabel
      newId).1.status ≠ 403 ∧
    (delete_staff staffs true "OWNER" salon_id staff_id).1.status ≠ 403 ∧
    (get_staff_performance tz staffs logs true "OWNER" salon_id dateParam
      todayLocal).status ≠ 403 ∧
    (get_monthly_analytics tz logs true "OWNER" salon_id year month).status ≠ 403 ∧
    (get_yearly_analytics tz logs true "OWNER" salon_id year).status ≠ 403 := by
  refine ⟨⟨?_, ?_⟩, ⟨?_, ?_⟩, ?_, ?_, ?_, ?_, ?_, ?_, ?_, ?_⟩
  · simp [create_staff, hrole]
  · simp [create_staff, hrole]
  · simp [delete_staff, hrole]
  · simp [delete_staff, hrole]
  · simp [get_staff_performance, hrole]
  · simp [get_monthly_analytics, hrole]
  · simp [get_yearly_analytics, hrole]
  · simp only [create_staff]
    split_ifs <;> simp_all
  · simp only [delete_staff]
    split_ifs <;> simp_all
  · simp only [get_staff_performance]
    rcases hcase : parseDateParam dateParam with _ | target <;> simp [hcase]
  · simp [get_monthly_analytics]
  · simp [get_yearly_analytics]

/-- C8 witness: a concrete STAFF caller is refused (403, no write) by the
owner-only endpoints. -/
theorem c8_witness :
    ((create_staff [] true "STAFF" "sa1" (some "A") (some "a@b.c") none none
        "st1").1.status = 403 ∧
      (create_staff [] true "STAFF" "sa1" (some "A") (some "a@b.c") none none
        "st1").2 = []) ∧
    (get_staff_performance flatTz [] [] true "STAFF" "sa1" none
      ⟨2024, 1, 1⟩).status = 403 ∧
    (get_monthly_analytics flatTz [] true "STAFF" "sa1" 2024 5).status = 403 ∧
    (get_yearly_analytics flatTz [] true "STAFF" "sa1" 2024).status = 403 := by
  have h := c8_owner_only_endpoints flatTz [] [] "STAFF" "sa1" "stX" "st1"
    (some "A") (some "a@b.c") none none none ⟨2024, 1, 1⟩ 2024 5 (by decide)
  exact ⟨h.1, h.2.2.1, h.2.2.2.1, h.2.2.2.2.1⟩

/-- Filtering on the caller's staff id commutes with the range filter and
is idempotent: narrowing the whole table first and then re-running the
handler's filters selects the same rows. -/
theorem staff_filter_comm (logs : List ServiceLog) (P : ServiceLog → Bool)
    (sid : Option String) :
    (logs.filter P).filter (fun l => l.staff_id == sid) =
    ((logs.filter (fun l => l.staff_id == sid)).filter P).filter
      (fun l => l.staff_id == sid) := by
  induction logs with
  | nil => rfl
  | cons a t ih =>
    by_cases hP : P a <;> by_cases hS : (a.staff_id == sid) = true <;>
      simp [List.filter_cons, hP, hS, ih]

/-- C1 (amended): for a STAFF caller whose user id resolves to a `Staff`
row, `GET /api/logs/today` returns only rows with that staff id, and the
`GET /api/summary` response is unchanged when every row of another staff is
removed from the table — its aggregates count only the caller's own rows,
for every date parameter.  `GET /api/logs`, however, applies no staff
narrowing at all: see `c1_counterexample`. -/
theorem c1_staff_narrowing_amended (tz : Tz) (logs : List ServiceLog)
    (staffs : List Staff) (salon_id uid : String) (dateParam : Option String)
    (todayLocal : PDate) (st : Staff)
    (hfind : findStaffByUser staffs uid = some st) :
    (∀ l ∈ (get_today_logs tz logs staffs true salon_id "STAFF" uid dateParam
      todayLocal).logs, l.staff_id = some st.id) ∧
    get_summary tz logs staffs true salon_id "STAFF" uid dateParam todayLocal =
      get_summary tz (logs.filter (fun l => l.staff_id == some st.id)) staffs
        true salon_id "STAFF" uid dateParam todayLocal := by
  constructor
  · intro l hl
    rcases hcase : parseDateParam dateParam with _ | target
    · simp [get_today_logs, hcase] at hl
    · simp only [get_today_logs, hcase, hfind] at hl
      simp at hl
      exact hl.2.1
  · rcases hcase : parseDateParam dateParam with _ | target
    · simp [get_summary, hcase]
    · simp only [get_summary, hcase, hfind, Bool.not_true, Bool.false_eq_true,
        if_false, beq_self_eq_true, if_true]
      rw [staff_filter_comm]

/-- A log by staff "stA", used by the C1 counterexample. -/
def c1LogA : ServiceLog :=
  ⟨"l1", "sa1", some "stA", none, none, 10000, "cash",
    dayStartLocal ⟨2024, 1, 15⟩ + 1000⟩

/-- A log by staff "stB" on the same day. -/
def c1LogB : ServiceLog :=
  ⟨"l2", "sa1", some "stB", none, none, 20000, "upi",
    dayStartLocal ⟨2024, 1, 15⟩ + 2000⟩

/-- The `Staff` row of the STAFF caller "uB" in the C1 theorems. -/
def c1StaffB : Staff :=
  ⟨"stB", "sa1", "Bea", some "b@x.c", none, "Stylist", some "uB", true⟩

/-- C1 counterexample: the caller with user id "uB" is STAFF with staff row
"stB", yet `GET /api/logs` (the ranged listing — its handler reads neither
the caller's role nor a staff id) returns staff "stA"'s row as well,
refuting the claim that all three endpoints narrow to the caller's own
staff id. -/
theorem c1_counterexample :
    findStaffByUser [c1StaffB] "uB" = some c1StaffB ∧
    (get_logs [c1LogA, c1LogB] true "sa1" (some "2024-01-01")
      (some "2024-12-31")).logs = [c1LogA, c1LogB] ∧
    c1LogA.staff_id ≠ some c1StaffB.id := by
  decide

/-- C1 witness: at a concrete two-staff table, `/api/logs/today` returns
only the caller's rows and `/api/summary` ignores the other staff's row. -/
theorem c1_witness :
    findStaffByUser [c1StaffB] "uB" = some c1StaffB ∧
    (∀ l ∈ (get_today_logs flatTz [c1LogA, c1LogB] [c1StaffB] true "sa1"
      "STAFF" "uB" (some "2024-01-15") ⟨2024, 1, 15⟩).logs,
      l.staff_id = some c1StaffB.id) ∧
    get_summary flatTz [c1LogA, c1LogB] [c1StaffB] true "sa1" "STAFF" "uB"
      (some "2024-01-15") ⟨2024, 1, 15⟩ =
    get_summary flatTz ([c1LogA, c1LogB].filter
        (fun l => l.staff_id == some c1StaffB.id)) [c1StaffB] true "sa1"
      "STAFF" "uB" (some "2024-01-15") ⟨2024, 1, 15⟩ := by
  have h := c1_staff_narrowing_amended flatTz [c1LogA, c1LogB] [c1StaffB]
    "sa1" "uB" (some "2024-01-15") ⟨2024, 1, 15⟩ c1StaffB (by decide)
  exact ⟨by decide, h.1, h.2⟩

/-- The staff row found by `filter_by(email=...).first()` appears in the
post-linking table with its `user_id` set. -/
theorem setUserIdFirst_mem (staffs : List Staff) (email : Option String)
    (uid : String) (st : Staff)
    (h : staffs.find? (fun x => x.email == email) = some st) :
    (⟨st.id, st.salon_id, st.name, st.email, st.phone, st.role, some uid,
      st.is_active⟩ : Staff) ∈ setUserIdFirst staffs email uid := by
  induction staffs with
  | nil => simp [List.find?] at h
  | cons a t ih =>
    by_cases ha : (a.email == email) = true
    · simp only [List.find?, ha] at h
      rw [Option.some_inj] at h
      subst h
      simp [setUserIdFirst, ha]
    · simp only [List.find?, ha] at h
      simp only [Bool.not_eq_true] at ha
      simp only [setUserIdFirst, ha, Bool.false_eq_true, if_false]
      exact List.mem_cons_of_mem _ (ih h)

/-- C6 (amended): on first contact, `sync_profile` assigns role STAFF if
and only if SOME staff row has the claim's email — the lookup is
`Staff.query.filter_by(email=email).first()` with no `is_active` and no
`user_id is None` condition (see `c6_counterexample`); in that case the
found row's `user_id` is set to the new user's id and no salon is created;
otherwise it assigns role OWNER and creates a salon with name defaulting to
"My Salon", address defaulting to "", timezone defaulting to
"Asia/Kolkata". -/
theorem c6_sync_profile_amended (users : List User) (staffs : List Staff)
    (salons : List Salon) (sub : String) (email phone : Option String)
    (pn pa ptz : Option String) (newUserId newSalonId : String)
    (hnew : users.find? (fun u => u.cognito_sub == sub) = none) :
    ((sync_profile users staffs salons sub email phone pn pa ptz newUserId
      newSalonId).roleAssigned = some "STAFF" ↔
      ∃ st ∈ staffs, st.email = email) ∧
    (∀ st, staffs.find? (fun x => x.email == email) = some st →
      (sync_profile users staffs salons sub email phone pn pa ptz newUserId
        newSalonId).salons = salons ∧
      (sync_profile users staffs salons sub email phone pn pa ptz newUserId
        newSalonId).staffs = setUserIdFirst staffs email newUserId ∧
      (⟨st.id, st.salon_id, st.name, st.email, st.phone, st.role,
        some newUserId, st.is_active⟩ : Staff) ∈
        (sync_profile users staffs salons sub email phone pn pa ptz newUserId
          newSalonId).staffs) ∧
    (staffs.find? (fun x => x.email == email) = none →
      (sync_profile users staffs salons sub email phone pn pa ptz newUserId
        newSalonId).roleAssigned = some "OWNER" ∧
      (sync_profile users staffs salons sub email phone pn pa ptz newUserId
        newSalonId).staffs = staffs ∧
      (sync_profile users staffs salons sub email phone pn pa ptz newUserId
        newSalonId).salons = salons ++ [⟨newSalonId, newUserId,
          pn.getD "My Salon", pa.getD "", ptz.getD "Asia/Kolkata"⟩]) := by
  rcases hfind : staffs.find? (fun x => x.email == email) with _ | st0
  · refine ⟨?_, ?_, ?_⟩
    · simp only [sync_profile, hnew, hfind]
      constructor
      · intro h
        simp at h
      · rintro ⟨st, hst, he⟩
        rw [List.find?_eq_none] at hfind
        have := hfind st hst
        simp [he] at this
    · intro st hst
      rw [hfind] at hst
      simp at hst
    · intro _
      simp [sync_profile, hnew, hfind]
  · refine ⟨?_, ?_, ?_⟩
    · simp only [sync_profile, hnew, hfind]
      constructor
      · intro _
        refine ⟨st0, List.mem_of_find?_eq_some hfind, ?_⟩
        have := List.find?_some hfind
        simpa using this
      · intro _
        trivial
    · intro st hst
      rw [hfind, Option.some_inj] at hst
      refine ⟨?_, ?_, ?_⟩
      · simp [sync_profile, hnew, hfind]
      · simp [sync_profile, hnew, hfind]
      · rw [← hst]
        simp only [sync_profile, hnew, hfind]
        exact setUserIdFirst_mem staffs email newUserId st0 hfind
    · intro hnone
      rw [hfind] at hnone
      simp at hnone

/-- Staff row used by the C6 counterexample: matching email, but inactive
and already linked to another user. -/
def c6InactiveLinkedStaff : Staff :=
  ⟨"st1", "sa1", "Riya", some "a@b.c", none, "Stylist", some "u0", false⟩

/-- C6 counterexample: no ACTIVE staff row with an UNSET `user_id` matches
the email — the claim therefore predicts role OWNER — yet `sync_profile`
assigns role STAFF, because the code matches on email alone. -/
theorem c6_counterexample :
    (sync_profile [] [c6InactiveLinkedStaff] [] "sub1" (some "a@b.c") none
      none none none "u1" "sal1").roleAssigned = some "STAFF" ∧
    ¬∃ st ∈ [c6InactiveLinkedStaff], st.is_active = true ∧
      st.user_id = none ∧ st.email = some "a@b.c" := by
  decide

/-- C6 witness: concrete first contact against a matching staff row — no
salon is created and the found row is re-linked to the new user. -/
theorem c6_witness :
    List.find? (fun x => x.email == some "a@b.c") [c6InactiveLinkedStaff] =
      some c6InactiveLinkedStaff ∧
    (sync_profile [] [c6InactiveLinkedStaff] [] "sub1" (some "a@b.c") none
      none none none "u1" "sal1").salons = [] ∧
    (sync_profile [] [c6InactiveLinkedStaff] [] "sub1" (some "a@b.c") none
      none none none "u1" "sal1").staffs =
      setUserIdFirst [c6InactiveLinkedStaff] (some "a@b.c") "u1" ∧
    (⟨c6InactiveLinkedStaff.id, c6InactiveLinkedStaff.salon_id,
      c6InactiveLinkedStaff.name, c6InactiveLinkedStaff.email,
      c6InactiveLinkedStaff.phone, c6InactiveLinkedStaff.role, some "u1",
      c6InactiveLinkedStaff.is_active⟩ : Staff) ∈
      (sync_profile [] [c6InactiveLinkedStaff] [] "sub1" (some "a@b.c") none
        none none none "u1" "sal1").staffs := by
  have h := c6_sync_profile_amended [] [c6InactiveLinkedStaff] [] "sub1"
    (some "a@b.c") none none none none "u1" "sal1" (by decide)
  have hf : List.find? (fun x => x.email == some "a@b.c")
      [c6InactiveLinkedStaff] = some c6InactiveLinkedStaff := by decide
  obtain ⟨hs, hst, hmem⟩ := h.2.1 c6InactiveLinkedStaff hf
  exact ⟨hf, hs, hst, hmem⟩

/-- C7 (amended): a malformed date string yields a 400 from
`GET /api/logs/today`, `GET /api/summary`, `GET /api/summary/breakdown` and
(for an OWNER caller) `GET /api/summary/staff-performance`.  But `GET
/api/logs` applies no validation at all — the raw `start_date`/`end_date`
strings are passed into the query's date comparison and the request
answers 200 for any strings — and `POST /api/daily-closing` parses the
date outside its `try` block, so a malformed date escapes as an uncaught
error surfacing as a 500-class response (no row inserted), not a
400-class InvalidDate. -/
theorem c7_invalid_date_amended (tz : Tz) (logs : List ServiceLog)
    (staffs : List Staff) (services : List Service)
    (closings : List DailyClosing) (salon_id uid role s : String)
    (todayLocal todayServer : PDate) (nowUtc : Int) (newId : String)
    (startp endp : Option String)
    (hbad : parseDate s = none) :
    (get_today_logs tz logs staffs true salon_id role uid (some s)
      todayLocal).status = 400 ∧
    (get_summary tz logs staffs true salon_id role uid (some s)
      todayLocal).status = 400 ∧
    (get_service_breakdown tz services logs true salon_id (some s)
      todayLocal).status = 400 ∧
    (get_staff_performance tz staffs logs true "OWNER" salon_id (some s)
      todayLocal).status = 400 ∧
    (get_logs logs true salon_id startp endp).status = 200 ∧
    (create_daily_closing logs closings true salon_id (some s) todayServer
      nowUtc newId).1.status = 500 ∧
    (create_daily_closing logs closings true salon_id (some s) todayServer
      nowUtc newId).2 = closings := by
  refine ⟨?_, ?_, ?_, ?_, ?_, ?_, ?_⟩
  · simp [get_today_logs, parseDateParam, hbad]
  · simp [get_summary, parseDateParam, hbad]
  · simp [get_service_breakdown, parseDateParam, hbad]
  · simp [get_staff_performance, parseDateParam, hbad]
  · simp [get_logs]
  · simp [create_daily_closing, hbad]
  · simp [create_daily_closing, hbad]

/-- C7 counterexample: `POST /api/daily-closing` with the malformed date
"13-2024-99" produces a 500-class failure, not the 400-class InvalidDate
error the claim requires. -/
theorem c7_counterexample :
    parseDate "13-2024-99" = none ∧
    (create_daily_closing [] [] true "sa1" (some "13-2024-99") ⟨2024, 1, 1⟩
      0 "c1").1.status = 500 ∧
    ¬(create_daily_closing [] [] true "sa1" (some "13-2024-99") ⟨2024, 1, 1⟩
      0 "c1").1.status = 400 := by
  decide

/-- C7 witness: concrete malformed strings at every date-accepting
endpoint. -/
theorem c7_witness :
    parseDate "not-a-date" = none ∧
    (get_today_logs flatTz [] [] true "sa1" "OWNER" "u1" (some "not-a-date")
      ⟨2024, 1, 1⟩).status = 400 ∧
    (get_summary flatTz [] [] true "sa1" "OWNER" "u1" (some "not-a-date")
      ⟨2024, 1, 1⟩).status = 400 ∧
    (get_service_breakdown flatTz [] [] true "sa1" (some "not-a-date")
      ⟨2024, 1, 1⟩).status = 400 ∧
    (get_staff_performance flatTz [] [] true "OWNER" "sa1"
      (some "not-a-date") ⟨2024, 1, 1⟩).status = 400 ∧
    (get_logs [] true "sa1" (some "not-a-date") none).status = 200 ∧
    (create_daily_closing [] [] true "sa1" (some "not-a-date") ⟨2024, 1, 1⟩
      0 "c1").1.status = 500 := by
  have h := c7_invalid_date_amended flatTz [] [] [] [] "sa1" "u1" "OWNER"
    "not-a-date" ⟨2024, 1, 1⟩ ⟨2024, 1, 1⟩ 0 "c1" (some "not-a-date") none
    (by decide)
  exact ⟨by decide, h.1, h.2.1, h.2.2.1, h.2.2.2.1, h.2.2.2.2.1, h.2.2.2.2.2.1⟩

/-- C4: the `get_day_range_utc` round trip.  For a timezone whose offset
function behaves like a valid IANA zone around day D — the UTC offset
varies by at most two hours across the local day (`hvar`; real DST shifts
are at most two hours), and the offset does not jump forward by more than
one second across the following local midnight (`hmid`; a forward jump
exactly there would make "one second past local midnight" a nonexistent
wall time) — the UTC instant of local midday of D lies within the returned
`[startUtc, endUtc]`, and the UTC instant one second past local midnight of
D+1 lies strictly after `endUtc`, hence outside the range. -/
theorem c4_day_range_roundtrip (tz : Tz) (D todayLocal : PDate)
    (hvar : ∀ t1 t2 : Int, dayStartLocal D ≤ t1 →
      t1 ≤ dayStartLocal D + usPerDay - 1 → dayStartLocal D ≤ t2 →
      t2 ≤ dayStartLocal D + usPerDay - 1 →
      tz.offsetOfLocal t1 - tz.offsetOfLocal t2 ≤ 2 * usPerHour)
    (hmid : tz.offsetOfLocal (dayStartLocal D + usPerDay + usPerSecond) -
      tz.offsetOfLocal (dayStartLocal D + usPerDay - 1) ≤ usPerSecond) :
    (get_day_range_utc tz (some D) todayLocal).1 ≤
      dayStartLocal D + 12 * usPerHour -
        tz.offsetOfLocal (dayStartLocal D + 12 * usPerHour) ∧
    dayStartLocal D + 12 * usPerHour -
        tz.offsetOfLocal (dayStartLocal D + 12 * usPerHour) ≤
      (get_day_range_utc tz (some D) todayLocal).2 ∧
    (get_day_range_utc tz (some D) todayLocal).2 <
      dayStartLocal D + usPerDay + usPerSecond -
        tz.offsetOfLocal (dayStartLocal D + usPerDay + usPerSecond) := by
  have e1 : usPerHour = 3600000000 := rfl
  have e2 : usPerDay = 86400000000 := rfl
  have e3 : usPerSecond = 1000000 := rfl
  have h1 := hvar (dayStartLocal D + 12 * usPerHour) (dayStartLocal D)
    (by omega) (by omega) (by omega) (by omega)
  have h2 := hvar (dayStartLocal D + usPerDay - 1)
    (dayStartLocal D + 12 * usPerHour) (by omega) (by omega) (by omega)
    (by omega)
  refine ⟨?_, ?_, ?_⟩ <;>
    simp only [get_day_range_utc, Option.getD_some] <;> omega

/-- Asia/Kolkata: constant offset UTC+5:30, no DST. -/
def kolkataTz : Tz :=
  ⟨fun _ => 19800000000, fun _ => 19800000000⟩

/-- C4 witness: the round trip at 2024-03-15 in Asia/Kolkata. -/
theorem c4_witness :
    (get_day_range_utc kolkataTz (some ⟨2024, 3, 15⟩) ⟨2024, 3, 15⟩).1 ≤
      dayStartLocal ⟨2024, 3, 15⟩ + 12 * usPerHour -
        kolkataTz.offsetOfLocal (dayStartLocal ⟨2024, 3, 15⟩ + 12 * usPerHour) ∧
    dayStartLocal ⟨2024, 3, 15⟩ + 12 * usPerHour -
        kolkataTz.offsetOfLocal (dayStartLocal ⟨2024, 3, 15⟩ + 12 * usPerHour) ≤
      (get_day_range_utc kolkataTz (some ⟨2024, 3, 15⟩) ⟨2024, 3, 15⟩).2 ∧
    (get_day_range_utc kolkataTz (some ⟨2024, 3, 15⟩) ⟨2024, 3, 15⟩).2 <
      dayStartLocal ⟨2024, 3, 15⟩ + usPerDay + usPerSecond -
        kolkataTz.offsetOfLocal
          (dayStartLocal ⟨2024, 3, 15⟩ + usPerDay + usPerSecond) := by
  exact c4_day_range_roundtrip kolkataTz ⟨2024, 3, 15⟩ ⟨2024, 3, 15⟩
    (by intro t1 t2 _ _ _ _; norm_num [kolkataTz, usPerHour])
    (by norm_num [kolkataTz, usPerSecond])

/-- C5: the monthly analytics response contains exactly as many buckets as
there are days in the month — `monthrange` gives February 29 buckets in a
leap year and 28 otherwise — with bucket `i` named `str(i+1)` and holding
the day's revenue, which is 0 when no salon log in the month range lands on
that local day; the reported grand total equals the sum of the bucket
values.  Likewise the yearly response has exactly 12 month buckets,
zero-filled, with grand total equal to the sum of the bucket values. -/
theorem c5_analytics_dense_buckets (tz : Tz) (logs : List ServiceLog)
    (salon_id : String) (year month : Int) :
    (get_monthly_analytics tz logs true "OWNER" salon_id year
      month).data.length = (monthrange year month).toNat ∧
    monthrange year 2 = (if isLeap year then 29 else 28) ∧
    (∀ i : Nat, ∀ hi : i < (get_monthly_analytics tz logs true "OWNER"
        salon_id year month).data.length,
      ((get_monthly_analytics tz logs true "OWNER" salon_id year
        month).data[i]).1 = toString (i + 1) ∧
      ((get_monthly_analytics tz logs true "OWNER" salon_id year
        month).data[i]).2 =
        monthlyDailyData tz logs salon_id year month ((i : Int) + 1)) ∧
    (∀ d : Int, (∀ l ∈ logs, l.salon_id = salon_id →
        (monthlyRangeUtc tz year month).1 ≤ l.served_at →
        l.served_at ≤ (monthlyRangeUtc tz year month).2 →
        localDayOfMonth tz l.served_at ≠ d) →
      monthlyDailyData tz logs salon_id year month d = 0) ∧
    (get_monthly_analytics tz logs true "OWNER" salon_id year month).total =
      ((get_monthly_analytics tz logs true "OWNER" salon_id year
        month).data.map (fun p => p.2)).sum ∧
    (get_yearly_analytics tz logs true "OWNER" salon_id year).data.length =
      12 ∧
    (∀ i : Nat, ∀ hi : i < (get_yearly_analytics tz logs true "OWNER"
        salon_id year).data.length,
      ((get_yearly_analytics tz logs true "OWNER" salon_id year).data[i]).2 =
        yearlyMonthData tz logs salon_id year ((i : Int) + 1)) ∧
    (∀ m2 : Int, (∀ l ∈ logs, l.salon_id = salon_id →
        (yearlyRangeUtc tz year).1 ≤ l.served_at →
        l.served_at ≤ (yearlyRangeUtc tz year).2 →
        localMonthOf tz l.served_at ≠ m2) →
      yearlyMonthData tz logs salon_id year m2 = 0) ∧
    (get_yearly_analytics tz logs true "OWNER" salon_id year).total =
      ((get_yearly_analytics tz logs true "OWNER" salon_id
        year).data.map (fun p => p.2)).sum := by
  refine ⟨?_, ?_, ?_, ?_, ?_, ?_, ?_, ?_, ?_⟩
  · simp only [get_monthly_analytics, Bool.not_true, Bool.false_eq_true,
      if_false, beq_self_eq_true, if_true, List.length_map, List.length_range]
  · rfl
  · intro i hi
    refine ⟨?_, ?_⟩ <;>
      simp only [get_monthly_analytics, Bool.not_true, Bool.false_eq_true,
        if_false, beq_self_eq_true, if_true, List.getElem_map,
        List.getElem_range]
  · intro d h
    have hnil : ((logs.filter (fun l => l.salon_id == salon_id &&
        decide ((monthlyRangeUtc tz year month).1 ≤ l.served_at) &&
        decide (l.served_at ≤ (monthlyRangeUtc tz year month).2))).filter
        (fun l => localDayOfMonth tz l.served_at == d)) = [] := by
      rw [List.filter_eq_nil_iff]
      intro l hl
      rw [List.mem_filter] at hl
      obtain ⟨hmem, hp⟩ := hl
      simp only [Bool.and_eq_true, beq_iff_eq, decide_eq_true_eq] at hp
      simp only [beq_iff_eq]
      exact h l hmem hp.1.1 hp.1.2 hp.2
    simp [monthlyDailyData, hnil, sumPrices]
  · simp only [get_monthly_analytics, Bool.not_true, Bool.false_eq_true,
      if_false, beq_self_eq_true, if_true]
    rw [List.map_map]
    rfl
  · simp only [get_yearly_analytics, Bool.not_true, Bool.false_eq_true,
      if_false, beq_self_eq_true, if_true, List.length_map, List.length_range]
  · intro i hi
    simp only [get_yearly_analytics, Bool.not_true, Bool.false_eq_true,
      if_false, beq_self_eq_true, if_true, List.getElem_map,
      List.getElem_range]
  · intro m2 h
    have hnil : ((logs.filter (fun l => l.salon_id == salon_id &&
        decide ((yearlyRangeUtc tz year).1 ≤ l.served_at) &&
        decide (l.served_at ≤ (yearlyRangeUtc tz year).2))).filter
        (fun l => localMonthOf tz l.served_at == m2)) = [] := by
      rw [List.filter_eq_nil_iff]
      intro l hl
      rw [List.mem_filter] at hl
      obtain ⟨hmem, hp⟩ := hl
      simp only [Bool.and_eq_true, beq_iff_eq, decide_eq_true_eq] at hp
      simp only [beq_iff_eq]
      exact h l hmem hp.1.1 hp.1.2 hp.2
    simp [yearlyMonthData, hnil, sumPrices]
  · simp only [get_yearly_analytics, Bool.not_true, Bool.false_eq_true,
      if_false, beq_self_eq_true, if_true]
    rw [List.map_map]
    rfl

/-- C5 witness: February 2024 (leap year) yields 29 buckets; with no logs
every bucket is 0 and totals equal bucket sums; the 2024 yearly chart has
12 buckets. -/
theorem c5_witness :
    (get_monthly_analytics flatTz [] true "OWNER" "sa1" 2024 2).data.length =
      29 ∧
    monthlyDailyData flatTz [] "sa1" 2024 2 5 = 0 ∧
    (get_monthly_analytics flatTz [] true "OWNER" "sa1" 2024 2).total =
      ((get_monthly_analytics flatTz [] true "OWNER" "sa1" 2024 2).data.map
        (fun p => p.2)).sum ∧
    (get_yearly_analytics flatTz [] true "OWNER" "sa1" 2024).data.length =
      12 ∧
    yearlyMonthData flatTz [] "sa1" 2024 7 = 0 ∧
    (get_yearly_analytics flatTz [] true "OWNER" "sa1" 2024).total =
      ((get_yearly_analytics flatTz [] true "OWNER" "sa1" 2024).data.map
        (fun p => p.2)).sum := by
  have h := c5_analytics_dense_buckets flatTz [] "sa1" 2024 2
  refine ⟨?_, ?_, ?_, ?_, ?_, ?_⟩
  · rw [h.1]
    decide
  · exact h.2.2.2.1 5 (fun l hl => absurd hl (List.not_mem_nil l))
  · exact h.2.2.2.2.1
  · exact h.2.2.2.2.2.1
  · exact h.2.2.2.2.2.2.2.1 7 (fun l hl => absurd hl (List.not_mem_nil l))
  · exact h.2.2.2.2.2.2.2.2
